import Mathlib

/-!
Verification development for the Bob LangGraph agent repository.

The Python sources under src/ are shallowly embedded below: the mutable
state dictionary becomes a record, each workflow node becomes a function
from state to state, the LLM and the tool executor become oracles supplied
as parameters, and the turn workflow graph becomes a fuel-indexed
executor over an explicit node type.  Machine integers are modelled with
Int or Nat (Python integers are unbounded, so no wrap-around is needed),
and delays are modelled with rationals.
-/

namespace Bob

/-! ## Message model (langchain message objects, as the agent code uses them) -/

/-- Identifier and name of a tool call carried by an assistant message. -/
structure ToolCall where
  name : String
  id : Nat
  deriving Repr, DecidableEq

/-- Embedded message object.  The constructors human, ai and tool mirror
HumanMessage, AIMessage (with its tool_calls list) and ToolMessage.  The
raw constructor stands for a plain Python string stored in the messages
list, which update_state can produce when agent_response is a string; a
raw entry is not an instance of any message class and has no content
attribute. -/
inductive Msg where
  | human (content : String)
  | ai (content : String) (toolCalls : List ToolCall)
  | tool (content : String)
  | raw (s : String)
  deriving Repr, DecidableEq

namespace Msg

/-- isinstance(msg, HumanMessage). -/
def isHuman : Msg → Bool
  | .human _ => true
  | _ => false

/-- isinstance(msg, AIMessage). -/
def isAI : Msg → Bool
  | .ai _ _ => true
  | _ => false

/-- The tool_calls attribute: empty for anything but an AIMessage. -/
def toolCallsOf : Msg → List ToolCall
  | .ai _ tcs => tcs
  | _ => []

/-- Length contributed to the token estimate: len(msg.content) when the
object has a content attribute, 0 otherwise (a raw string has none). -/
def contentLen : Msg → Nat
  | .human c => c.length
  | .ai c _ => c.length
  | .tool c => c.length
  | .raw _ => 0

/-- Content of a message object; for a raw string, str(obj) is the string
itself. -/
def contentOf : Msg → String
  | .human c => c
  | .ai c _ => c
  | .tool c => c
  | .raw s => s

end Msg

/-- Python truthiness of an optional string field such as user_input:
None and the empty string are falsy. -/
def truthyStr : Option String → Bool
  | none => false
  | some s => s ≠ ""

/-- The agent_response field holds either a message object (always truthy)
or a plain string (truthy when non-empty). -/
def AgentResp := Msg ⊕ String
  deriving Repr, DecidableEq

/-- Python truthiness of the agent_response field. -/
def truthyResp : Option AgentResp → Bool
  | none => false
  | some (.inl _) => true
  | some (.inr s) => s ≠ ""

/-! ## ConversationMetadata and the context mapping -/

/-- ConversationMetadata from state.py. -/
structure Metadata where
  start_time : String
  last_updated : String
  total_messages : Nat
  total_tokens_estimate : Nat
  conversation_id : String
  user_preferences : List (String × String)
  deriving Repr, DecidableEq

/-- Result record of WorkflowManager.analyze_conversation_context.  The
conversation_length_minutes entry is omitted: it only re-reads wall-clock
timestamps and no modelled code consumes it. -/
structure ContextAnalysis where
  total_messages : Nat
  user_messages : Nat
  ai_messages : Nat
  conversation_stage : String
  recent_topics : List String
  needs_summary : Bool
  deriving Repr, DecidableEq

/-- The free-form context dictionary, restricted to the keys the embedded
code reads or writes. -/
structure Context where
  truncated : Bool := false
  original_message_count : Option Nat := none
  workflow_analysis : Option ContextAnalysis := none
  response_plan : Option String := none
  conversation_summary : Option String := none
  last_analysis_update : Option String := none
  deriving Repr, DecidableEq

/-! ## AgentState -/

/-- AgentState from state.py.  iteration_count is an Int because the
validator checks it for negativity. -/
structure AgentState where
  messages : List Msg
  user_input : Option String
  agent_response : Option AgentResp
  iteration_count : Int
  should_end : Bool
  continue_conversation : Bool
  context : Context
  metadata : Option Metadata
  last_error : Option String
  retry_count : Nat
  deriving Repr, DecidableEq

/-- create_initial_state from state.py; now and cid stand for the
wall-clock timestamp string and the generated conversation id. -/
def create_initial_state (user_input : String) (now : String) (cid : String) :
    AgentState where
  messages := []
  user_input := some user_input
  agent_response := none
  iteration_count := 0
  should_end := false
  continue_conversation := false
  context := {}
  metadata := some
    { start_time := now, last_updated := now, total_messages := 0,
      total_tokens_estimate := 0, conversation_id := cid, user_preferences := [] }
  last_error := none
  retry_count := 0

/-- validate_state from state.py.  The checks that messages is a list of
message objects and that the metadata record has its required fields are
guaranteed by the embedding types; the remaining runtime content is the
sign check on iteration_count. -/
def validate_state (s : AgentState) : Bool :=
  decide (0 ≤ s.iteration_count)

/-- update_metadata from state.py.  The parameter now stands for
datetime.now().isoformat(). -/
def update_metadata (now : String) (s : AgentState) : AgentState :=
  match s.metadata with
  | none =>
      { s with metadata := some (
          { start_time := now, last_updated := now,
            total_messages := s.messages.length,
            total_tokens_estimate := 0,
            conversation_id := "conv_" ++ now, user_preferences := [] }) }
  | some m =>
      { s with metadata := some (
          { m with last_updated := now,
                   total_messages := s.messages.length,
                   total_tokens_estimate :=
                     ((s.messages.map Msg.contentLen).sum) / 4 }) }

/-- Python slice xs[-k:]: the whole list when k = 0 (since -0 is 0), the
last k elements otherwise (all of xs when k exceeds its length). -/
def pySliceLast (xs : List α) (k : Nat) : List α :=
  if k = 0 then xs else xs.drop (xs.length - k)

/-- truncate_conversation_history from state.py, including the
python-slice behaviour of messages[-(max_messages - 1):]. -/
def truncate_conversation_history (s : AgentState) (max_messages : Nat := 20) :
    AgentState :=
  let messages := s.messages
  if messages.length > max_messages then
    let truncated :=
      if messages.length > 1 then
        messages.take 1 ++ pySliceLast messages (max_messages - 1)
      else
        pySliceLast messages max_messages
    { s with
      messages := truncated,
      context := { s.context with
                   truncated := true,
                   original_message_count := some messages.length } }
  else s

/-- handle_state_error from state.py. -/
def handle_state_error (s : AgentState) (error : String) (now : String) :
    AgentState :=
  let s := { s with last_error := some error, retry_count := s.retry_count + 1 }
  match s.metadata with
  | some m => { s with metadata := some { m with last_updated := now } }
  | none => s

/-- reset_error_state from state.py. -/
def reset_error_state (s : AgentState) : AgentState :=
  { s with last_error := none, retry_count := 0 }

/-! ## Error handling layer (bob_langgraph_agent/error_handling.py) -/

/-- ErrorType from error_handling.py. -/
inductive ErrorType where
  | api_error
  | rate_limit
  | validation_error
  | network_error
  | timeout_error
  | unknown_error
  deriving Repr, DecidableEq

/-- An exception as the retry machinery sees it.  classify_error inspects
the textual description of the exception; the embedding carries the
resulting classification as the kind field, together with an identity so
that distinct exceptions stay distinct. -/
structure AgentError where
  kind : ErrorType
  msgId : Nat
  deriving Repr, DecidableEq

/-- ErrorHandler.classify_error, applied to an embedded exception. -/
def classify_error (e : AgentError) : ErrorType := e.kind

/-- The retry-set installed by RetryConfig.__post_init__ when none is
supplied. -/
def defaultRetryOn : List ErrorType :=
  [ErrorType.api_error, ErrorType.rate_limit,
   ErrorType.network_error, ErrorType.timeout_error]

/-- RetryConfig from error_handling.py, delays as rationals. -/
structure RetryConfig where
  max_retries : Nat := 3
  base_delay : ℚ := 1
  max_delay : ℚ := 60
  exponential_base : ℚ := 2
  jitter : Bool := true
  retry_on_errors : List ErrorType := defaultRetryOn
  deriving Repr, DecidableEq

/-- ErrorHandler.should_retry: false once attempt reaches max_retries,
otherwise membership of the classified kind in the retry-set. -/
def should_retry (cfg : RetryConfig) (e : AgentError) (attempt : Nat) : Bool :=
  if attempt ≥ cfg.max_retries then false
  else decide (classify_error e ∈ cfg.retry_on_errors)

/-- ErrorHandler.calculate_delay.  The jitter draw j stands for the value
returned by random.uniform(0, delay * 0.1); calculate_delay adds it after
clamping the exponential delay at max_delay. -/
def calculate_delay (cfg : RetryConfig) (attempt : Nat) (j : ℚ) : ℚ :=
  let delay := min (cfg.base_delay * cfg.exponential_base ^ attempt) cfg.max_delay
  if cfg.jitter then delay + j else delay

/-- A jitter draw random.uniform(0, delay * 0.1) can produce: any rational
between 0 and a tenth of the clamped pre-jitter delay. -/
def admissibleJitter (cfg : RetryConfig) (attempt : Nat) (j : ℚ) : Prop :=
  0 ≤ j ∧ j ≤ min (cfg.base_delay * cfg.exponential_base ^ attempt) cfg.max_delay / 10

instance (cfg : RetryConfig) (attempt : Nat) (j : ℚ) :
    Decidable (admissibleJitter cfg attempt j) := by
  unfold admissibleJitter; infer_instance

/-- Loop body of ErrorHandler.retry_with_fallback.  The oracle primary
gives the outcome of the wrapped call on each attempt index.  remaining
counts the retries still allowed (max_retries minus the current attempt),
so the recursion mirrors the for-loop over range(max_retries + 1) with its
break when should_retry denies a retry.  The result pairs the loop
outcome with the number of invocations of primary actually made. -/
def retryLoopAux (primary : Nat → Except AgentError α)
    (retrySet : List ErrorType) (attempt : Nat) :
    Nat → Except AgentError α × Nat
  | 0 =>
      match primary attempt with
      | .ok v => (.ok v, attempt + 1)
      | .error e => (.error e, attempt + 1)
  | remaining + 1 =>
      match primary attempt with
      | .ok v => (.ok v, attempt + 1)
      | .error e =>
          if classify_error e ∈ retrySet then
            retryLoopAux primary retrySet (attempt + 1) remaining
          else (.error e, attempt + 1)

/-- The retry loop of retry_with_fallback started at attempt 0. -/
def retryLoop (cfg : RetryConfig) (primary : Nat → Except AgentError α) :
    Except AgentError α × Nat :=
  retryLoopAux primary cfg.retry_on_errors 0 cfg.max_retries

/-- ErrorHandler.retry_with_fallback.  fallback, when supplied, is the
outcome of the fallback call: on exhaustion of the primary the fallback
result is returned as is, so a fallback exception is re-raised and a
fallback value is returned; with no fallback the last primary error is
re-raised.  The second component counts primary invocations. -/
def retry_with_fallback (cfg : RetryConfig)
    (primary : Nat → Except AgentError α)
    (fallback : Option (Except AgentError α)) :
    Except AgentError α × Nat :=
  match retryLoop cfg primary with
  | (.ok v, n) => (.ok v, n)
  | (.error last, n) =>
      match fallback with
      | some fb => (fb, n)
      | none => (.error last, n)

/-! ## GracefulDegradation (bob_langgraph_agent/error_handling.py) -/

/-- The degradation level, a Python integer initialized to 0 with ceiling
max_degradation_level = 3. -/
def max_degradation_level : Int := 3

/-- GracefulDegradation.increase_degradation. -/
def increase_degradation (level : Int) : Int :=
  if level < max_degradation_level then level + 1 else level

/-- GracefulDegradation.decrease_degradation. -/
def decrease_degradation (level : Int) : Int :=
  if level > 0 then level - 1 else level

/-- GracefulDegradation.get_simplified_response: the dict lookup yields
None at level 0 and at any level outside the dict keys. -/
def get_simplified_response (level : Int) (user_input : String) :
    Option String :=
  if level = 0 then none
  else if level = 1 then
    some ("I\x27m experiencing some technical difficulties. " ++
      "Let me try to help you with: " ++ user_input.take 50 ++ "...")
  else if level = 2 then
    some ("I\x27m having trouble processing your request right now. " ++
      "Could you try rephrasing or asking something simpler?")
  else if level = 3 then
    some ("I\x27m currently experiencing technical issues. " ++
      "Please try again later or contact support.")
  else none

/-- GracefulDegradation.should_use_tools. -/
def should_use_tools (level : Int) : Bool :=
  decide (level < 2)

/-- GracefulDegradation.should_use_advanced_features. -/
def should_use_advanced_features (level : Int) : Bool :=
  decide (level < 1)

/-! ## BobAgent.chat -/

/-- BobAgent.chat.  The oracle primary gives, per retry attempt, the
outcome of the whole workflow invocation plus response extraction that
_robust_chat performs; with_retry wraps it with no inner fallback, and the
outer try/except routes any surviving exception to _fallback_chat, which
first raises the degradation level and then picks the simplified response
for the new level (falling back to a fixed apology when the lookup yields
None).  The result pairs the returned text with the degradation level
after the call. -/
def chat (cfg : RetryConfig) (primary : Nat → Except AgentError String)
    (message : String) (level : Int) : String × Int :=
  match (retry_with_fallback cfg primary none).1 with
  | .ok response => (response, level)
  | .error _ =>
      let level := increase_degradation level
      match get_simplified_response level message with
      | some r => (r, level)
      | none =>
          ("I\x27m experiencing technical difficulties. Please try again later.",
           level)

/-! ## Workflow manager (bob_langgraph_agent/workflow.py) -/

/-- WorkflowManager.analyze_conversation_context.  The
conversation_length_minutes entry is not modelled (wall-clock only). -/
def analyze_conversation_context (s : AgentState) : ContextAnalysis :=
  let messages := s.messages
  let total := messages.length
  let userCount := (messages.filter Msg.isHuman).length
  let aiCount := (messages.filter Msg.isAI).length
  let recent :=
    if 2 ≤ total then
      ((pySliceLast messages 6).filter Msg.isHuman).map Msg.contentOf
    else []
  let stage :=
    if total = 0 then "beginning"
    else if total < 6 then "early"
    else if total < 15 then "middle"
    else "extended"
  { total_messages := total, user_messages := userCount,
    ai_messages := aiCount, conversation_stage := stage,
    recent_topics := recent, needs_summary := decide (total > 20) }

/-- WorkflowManager.summarize_conversation; summaryText is the text the
LLM oracle would produce for the summarization prompt. -/
def summarize_conversation (summaryText : String) (s : AgentState) : String :=
  if s.messages.length < 4 then "Conversation is too short to summarize."
  else summaryText

/-- WorkflowManager.plan_response; planText is the text the LLM oracle
would produce for the planning prompt. -/
def plan_response (planText : String) (s : AgentState) : String :=
  if !truthyStr s.user_input then "No user input to plan for."
  else planText

/-- The advanced_processing node built by create_advanced_workflow_node.
The node returns only a context patch; the metadata refresh it performs
while computing last_analysis_update always yields the current timestamp. -/
def advanced_processing (planText summaryText now : String) (s : AgentState) :
    AgentState :=
  let analysis := analyze_conversation_context s
  let ctx := { s.context with
               workflow_analysis := some analysis,
               last_analysis_update := some now }
  let ctx :=
    if analysis.needs_summary then
      { ctx with conversation_summary := some (summarize_conversation summaryText s) }
    else ctx
  let ctx :=
    if truthyStr s.user_input then
      { ctx with response_plan := some (plan_response planText s) }
    else ctx
  { s with context := ctx }

/-! ## Agent nodes and graph (src/agent.py, flat variant cited by the claims) -/

/-- Configuration attributes the embedded agent control flow reads from
the config object (config.py also carries model/sampling settings, which
do not influence the control flow modelled here). -/
structure BobConfig where
  max_iterations : Int := 10
  max_conversation_history : Nat := 20
  deriving Repr, DecidableEq

/-- BobAgent._process_input.  In the branch without truthy user input the
returned dict spreads update_metadata(state) after the incremented
iteration_count entry, so the old iteration_count wins and the counter is
left unchanged. -/
def process_input (cfg : BobConfig) (now : String) (s : AgentState) :
    AgentState :=
  if !validate_state s then
    handle_state_error s "Invalid state detected in process_input" now
  else
    match s.user_input with
    | some u =>
        if u ≠ "" then
          let s1 := { s with
            messages := s.messages ++ [Msg.human u],
            iteration_count := s.iteration_count + 1,
            user_input := none }
          reset_error_state
            (truncate_conversation_history (update_metadata now s1)
              cfg.max_conversation_history)
        else update_metadata now s
    | none => update_metadata now s

/-- BobAgent._generate_response, with the LLM modelled as the list of
remaining oracle outputs (content and tool calls per call).  An empty
oracle models the call failing on every retry attempt: with_retry then
re-raises and the outer handler runs _fallback_generate, whose computed
fallback AIMessage is overridden by the dict spread of
handle_state_error(state, ...), so only the error annotation survives;
when user_input is None, _fallback_generate itself raises a TypeError
(None is not subscriptable in get_simplified_response), which escapes the
node.  On success the patch appends the response to messages exactly when
it carries tool calls. -/
def generate_response (now : String)
    (responses : List (String × List ToolCall)) (s : AgentState) :
    Except String (AgentState × List (String × List ToolCall)) :=
  if !validate_state s then
    match s.user_input with
    | some _ =>
        .ok (handle_state_error s "Using fallback response generation" now,
             responses)
    | none => .error "TypeError in get_simplified_response"
  else
    match responses with
    | [] =>
        match s.user_input with
        | some _ =>
            .ok (handle_state_error s "Using fallback response generation" now,
                 [])
        | none => .error "TypeError in get_simplified_response"
    | (c, tcs) :: rest =>
        let response := Msg.ai c tcs
        let s1 := { s with
          agent_response := some (.inl response),
          last_error := none,
          retry_count := 0,
          messages := if tcs ≠ [] then s.messages ++ [response] else s.messages }
        .ok (s1, rest)

/-- BobAgent._update_state. -/
def update_state (now : String) (s : AgentState) : AgentState :=
  if !validate_state s then
    handle_state_error s "Invalid state detected in update_state" now
  else
    match s.agent_response with
    | some (.inl m) =>
        let s1 := { s with
          messages := s.messages ++ [m],
          user_input := none,
          agent_response := some (.inr m.contentOf) }
        reset_error_state (update_metadata now s1)
    | some (.inr str) =>
        if str ≠ "" then
          let s1 := { s with
            messages := s.messages ++ [Msg.raw str],
            user_input := none,
            agent_response := some (.inr str) }
          reset_error_state (update_metadata now s1)
        else reset_error_state s
    | none => reset_error_state s

/-- BobAgent._should_use_tools: the degradation gate first, then the
tool_calls attribute of a truthy agent_response (a plain string has no
such attribute). -/
def agent_should_use_tools (level : Int) (s : AgentState) : String :=
  if !should_use_tools level then "continue"
  else
    match s.agent_response with
    | some (.inl m) => if m.toolCallsOf ≠ [] then "tools" else "continue"
    | _ => "continue"

/-- BobAgent._should_continue. -/
def should_continue (cfg : BobConfig) (s : AgentState) : String :=
  if s.should_end || decide (s.iteration_count ≥ cfg.max_iterations) then "end"
  else if !s.continue_conversation &&
          (decide (1 ≤ s.iteration_count) && !truthyStr s.user_input) then "end"
  else "continue"

/-- Modelled from the spec: the prebuilt ToolNode wired as the tools node
is library code outside src/; per the spec (workflow table, tools row),
it appends one tool-result message per tool call requested by the last
message, with toolResult as the tool-execution oracle. -/
def tools_node (toolResult : ToolCall → String) (s : AgentState) : AgentState :=
  match s.messages.getLast? with
  | some m =>
      { s with messages :=
          s.messages ++ m.toolCallsOf.map (fun tc => Msg.tool (toolResult tc)) }
  | none => s

/-- Node identifiers of the workflow graph built by _create_workflow. -/
inductive Node where
  | process_input
  | advanced_processing
  | generate_response
  | tools
  | update_state
  deriving Repr, DecidableEq

/-- Fixed data of one workflow invocation: configuration, the degradation
level of the agent, the timestamp oracle, the LLM texts for planning and
summarization, and the tool-execution oracle. -/
structure RunCtx where
  cfg : BobConfig
  deg : Int
  now : String
  planText : String
  summaryText : String
  toolResult : ToolCall → String

/-- One node execution followed by edge selection, as wired in
_create_workflow.  Conditional edges evaluate their routing function on
the state produced by the node, so the edge after process_input sees the
already-cleared user_input. -/
def step (ctx : RunCtx) (node : Node) (s : AgentState)
    (responses : List (String × List ToolCall)) :
    Except String (AgentState × List (String × List ToolCall) × Option Node) :=
  match node with
  | .process_input =>
      let s1 := process_input ctx.cfg ctx.now s
      .ok (s1, responses,
        some (if truthyStr s1.user_input then Node.advanced_processing
              else Node.generate_response))
  | .advanced_processing =>
      .ok (advanced_processing ctx.planText ctx.summaryText ctx.now s,
           responses, some Node.generate_response)
  | .generate_response =>
      match generate_response ctx.now responses s with
      | .error e => .error e
      | .ok (s1, rest) =>
          .ok (s1, rest,
            some (if agent_should_use_tools ctx.deg s1 = "tools" then Node.tools
                  else Node.update_state))
  | .tools =>
      .ok (tools_node ctx.toolResult s, responses, some Node.generate_response)
  | .update_state =>
      let s1 := update_state ctx.now s
      .ok (s1, responses,
        if should_continue ctx.cfg s1 = "continue" then some Node.process_input
        else none)

/-- Fuel-indexed run of the workflow graph from a node, returning the
sequence of visited nodes and the final state; exhausted fuel models the
recursion limit of app.invoke. -/
def runWorkflow (ctx : RunCtx) :
    Nat → Node → AgentState → List (String × List ToolCall) →
    Except String (List Node × AgentState)
  | 0, _, _, _ => .error "GraphRecursionError"
  | fuel + 1, node, s, responses =>
      match step ctx node s responses with
      | .error e => .error e
      | .ok (s1, _, none) => .ok ([node], s1)
      | .ok (s1, rest, some nxt) =>
          match runWorkflow ctx fuel nxt s1 rest with
          | .error e => .error e
          | .ok (visited, sf) => .ok (node :: visited, sf)

/-! ## Spec-side descriptions used to compare code with claims -/

/-- The last n elements of a list (empty for n = 0), as the specification
phrases "the most recent n". -/
def lastN (xs : List α) (n : Nat) : List α :=
  xs.drop (xs.length - n)

/-- Reading of the specification sentence on recentTopics: the content of
the last up-to-6 user messages of the conversation. -/
def spec_recent_topics (msgs : List Msg) : List String :=
  lastN ((msgs.filter Msg.isHuman).map Msg.contentOf) 6

/-- A minimal state around a given message list, for concrete witnesses. -/
def mkState (msgs : List Msg) : AgentState where
  messages := msgs
  user_input := none
  agent_response := none
  iteration_count := 0
  should_end := false
  continue_conversation := false
  context := {}
  metadata := none
  last_error := none
  retry_count := 0

/-- A two-message state on which the universally quantified form of the
truncation claim fails at maxHistory = 1. -/
def c4Bad : AgentState := mkState [Msg.human "a", Msg.human "b"]

/-- Ten distinct messages, as in the maxHistory = 5 instance of the
claim. -/
def tenMessages : List Msg :=
  [Msg.human "m0", Msg.ai "m1" [], Msg.human "m2", Msg.ai "m3" [],
   Msg.human "m4", Msg.ai "m5" [], Msg.human "m6", Msg.ai "m7" [],
   Msg.human "m8", Msg.ai "m9" []]

/-- A configuration exhibiting the delay cap overflow: base 1, growth 2,
cap 1, jitter enabled. -/
def c7Config : RetryConfig :=
  { base_delay := 1, max_delay := 1, exponential_base := 2, jitter := true }

/-- A seven-message conversation whose six most recent messages are all
assistant messages. -/
def c9Bad : AgentState :=
  mkState [Msg.human "a", Msg.ai "b" [], Msg.ai "c" [], Msg.ai "d" [],
           Msg.ai "e" [], Msg.ai "f" [], Msg.ai "g" []]

/-- A primary operation that always fails with an unclassifiable error. -/
def c6Fail : Nat → Except AgentError String :=
  fun _ => .error { kind := ErrorType.unknown_error, msgId := 0 }

deriving instance DecidableEq for Except

/-- Run context of the C3 scenario: default configuration, degradation
level 0, a calculator-style tool oracle. -/
def c3Ctx : RunCtx where
  cfg := {}
  deg := 0
  now := "t0"
  planText := "plan"
  summaryText := "sum"
  toolResult := fun _ => "145.0"

/-- Fresh-thread initial state of the C3 scenario (chat on a new thread
leaves continue_conversation at its single-turn default). -/
def c3Init : AgentState := create_initial_state "Calculate 15*8+25" "t0" "conv0"

/-- LLM oracle of the C3 scenario: a first response carrying exactly one
tool-call request, then a plain-text response. -/
def c3Responses : List (String × List ToolCall) :=
  [("", [{ name := "calculator", id := 1 }]), ("The result is 145.", [])]

/-- The C3 scenario run, with the recursion limit of app.invoke as fuel. -/
def c3Run : Except String (List Node × AgentState) :=
  runWorkflow c3Ctx 50 Node.process_input c3Init c3Responses

/-! ## Helper lemmas on truncation -/

/-- Core shape of truncate_conversation_history for a bound of at least 2:
the kept list is the first message followed by the most recent bound - 1. -/
theorem truncate_core (s : AgentState) (maxH : Nat) (h2 : 2 ≤ maxH)
    (hlen : maxH < s.messages.length) :
    (truncate_conversation_history s maxH).messages =
      s.messages.take 1 ++ lastN s.messages (maxH - 1) := by
  have h1 : 1 < s.messages.length := by omega
  have hk : ¬ maxH - 1 = 0 := by omega
  simp [truncate_conversation_history, pySliceLast, lastN, hlen, h1, hk]

/-- Length of the kept list under a bound of at least 2. -/
theorem truncate_core_len (s : AgentState) (maxH : Nat) (h2 : 2 ≤ maxH)
    (hlen : maxH < s.messages.length) :
    (truncate_conversation_history s maxH).messages.length = maxH := by
  rw [truncate_core s maxH h2 hlen]
  simp [lastN]
  omega

/-- Truncation records the truncated flag and the original count whenever
it fires. -/
theorem truncate_core_context (s : AgentState) (maxH : Nat)
    (hlen : maxH < s.messages.length) :
    (truncate_conversation_history s maxH).context.truncated = true ∧
    (truncate_conversation_history s maxH).context.original_message_count =
      some s.messages.length := by
  simp [truncate_conversation_history, hlen]

/-- The kept list keeps the original first element under a bound of at
least 2. -/
theorem truncate_core_head (s : AgentState) (maxH : Nat) (h2 : 2 ≤ maxH)
    (hlen : maxH < s.messages.length) :
    (truncate_conversation_history s maxH).messages.head? =
      s.messages.head? := by
  rw [truncate_core s maxH h2 hlen]
  match h : s.messages with
  | [] => simp [h] at hlen
  | m :: rest => simp

/-! ## Claim C4 -/



/-- C4 counterexample: at maxHistory = 1 with 2 messages, the code does
not keep the first message plus the most recent maxHistory - 1 = 0
messages (a kept list of length 1); it returns a list of length 3, so the
claim as stated over every configurable maxHistory is false. -/
theorem c4_counterexample :
    (truncate_conversation_history c4Bad 1).messages =
      [Msg.human "a", Msg.human "a", Msg.human "b"] ∧
    c4Bad.messages.take 1 ++ lastN c4Bad.messages (1 - 1) = [Msg.human "a"] ∧
    (truncate_conversation_history c4Bad 1).messages ≠
      c4Bad.messages.take 1 ++ lastN c4Bad.messages (1 - 1) := by
  refine ⟨by decide, by decide, by decide⟩

/-- C4 (amended to maxHistory at least 2, as the maxHistory = 1 anomaly
forces): when the messages list is longer than maxHistory, truncation
keeps the first message plus the most recent maxHistory - 1 messages,
the kept list has length maxHistory and starts with the original first
message, and context records truncated = true with the original count. -/
theorem truncation_spec (s : AgentState) (maxH : Nat) (h2 : 2 ≤ maxH)
    (hlen : maxH < s.messages.length) :
    (truncate_conversation_history s maxH).messages =
      s.messages.take 1 ++ lastN s.messages (maxH - 1) ∧
    (truncate_conversation_history s maxH).messages.length = maxH ∧
    (truncate_conversation_history s maxH).messages.head? = s.messages.head? ∧
    (truncate_conversation_history s maxH).context.truncated = true ∧
    (truncate_conversation_history s maxH).context.original_message_count =
      some s.messages.length :=
  ⟨truncate_core s maxH h2 hlen, truncate_core_len s maxH h2 hlen,
   truncate_core_head s maxH h2 hlen, (truncate_core_context s maxH hlen).1,
   (truncate_core_context s maxH hlen).2⟩



/-- C4 witness: the maxHistory = 5, 10-message instance of the amended
theorem. -/
theorem truncation_spec_witness :
    (truncate_conversation_history (mkState tenMessages) 5).messages.length = 5 ∧
    (truncate_conversation_history (mkState tenMessages) 5).messages.head? =
      (mkState tenMessages).messages.head? ∧
    (truncate_conversation_history (mkState tenMessages) 5).context.truncated =
      true := by
  have h := truncation_spec (mkState tenMessages) 5 (by decide) (by decide)
  exact ⟨h.2.1, h.2.2.1, h.2.2.2.1⟩

/-! ## Claim C10 -/

/-- C10: length bound of truncation holds exactly for bounds of at least
2, and at max_messages = 1 the kept list is the first message followed by
the whole original list, so the history grows by one. -/
theorem truncation_max1_grows (s t : AgentState) (maxH : Nat) (h2 : 2 ≤ maxH)
    (hlen : maxH < s.messages.length) (ht : 1 < t.messages.length) :
    (truncate_conversation_history s maxH).messages.length = maxH ∧
    (truncate_conversation_history t 1).messages =
      t.messages.take 1 ++ t.messages ∧
    (truncate_conversation_history t 1).messages.length =
      t.messages.length + 1 := by
  refine ⟨truncate_core_len s maxH h2 hlen, ?_, ?_⟩
  · simp [truncate_conversation_history, pySliceLast, ht]
  · simp [truncate_conversation_history, pySliceLast, ht]
    omega

/-- C10 witness: a concrete 3-message state under maxH = 2 and a concrete
2-message state under max_messages = 1. -/
theorem truncation_max1_grows_witness :
    (truncate_conversation_history
      (mkState [Msg.human "a", Msg.human "b", Msg.human "c"]) 2).messages.length
        = 2 ∧
    (truncate_conversation_history c4Bad 1).messages =
      c4Bad.messages.take 1 ++ c4Bad.messages ∧
    (truncate_conversation_history c4Bad 1).messages.length =
      c4Bad.messages.length + 1 :=
  truncation_max1_grows
    (mkState [Msg.human "a", Msg.human "b", Msg.human "c"]) c4Bad 2
    (by decide) (by decide) (by decide)

/-! ## Claim C5 -/

/-- C5: the degradation level stays an integer in [0, 3] under increase
and decrease, each moves by exactly one step away from the bounds and is
clamped at them, three increases from 0 give 3 and a fourth does not
exceed 3, tools are enabled exactly below level 2 and advanced features
exactly below level 1. -/
theorem degradation_level_spec (l : Int) (h0 : 0 ≤ l) (h3 : l ≤ 3) :
    (0 ≤ increase_degradation l ∧ increase_degradation l ≤ 3) ∧
    (0 ≤ decrease_degradation l ∧ decrease_degradation l ≤ 3) ∧
    (l < 3 → increase_degradation l = l + 1) ∧
    (increase_degradation 3 = 3) ∧
    (0 < l → decrease_degradation l = l - 1) ∧
    (decrease_degradation 0 = 0) ∧
    (increase_degradation (increase_degradation (increase_degradation 0)) = 3) ∧
    (should_use_tools l = decide (l < 2)) ∧
    (should_use_advanced_features l = decide (l < 1)) := by
  unfold increase_degradation decrease_degradation max_degradation_level
    should_use_tools should_use_advanced_features
  refine ⟨?_, ?_, ?_, by decide, ?_, by decide, by decide, rfl, rfl⟩
  · split <;> omega
  · split <;> omega
  · intro h
    simp [h]
  · intro h
    have hx : ¬ (0 : Int) < 0 := by omega
    split <;> omega

/-- C5 witness: the specification instance at level 2. -/
theorem degradation_level_spec_witness :
    (0 ≤ increase_degradation 2 ∧ increase_degradation 2 ≤ 3) ∧
    should_use_tools 2 = decide ((2 : Int) < 2) := by
  have h := degradation_level_spec 2 (by decide) (by decide)
  exact ⟨h.1, h.2.2.2.2.2.2.2.1⟩

/-! ## Claim C7 -/



/-- C7 counterexample: with jitter enabled, an admissible jitter draw of
a tenth of the clamped delay pushes the returned delay above max_delay,
because the code clamps before adding jitter; the claim that the delay is
at most maxDelay for every admissible draw is false. -/
theorem calculate_delay_counterexample :
    admissibleJitter c7Config 0 (1 / 10) ∧
    calculate_delay c7Config 0 (1 / 10) > c7Config.max_delay := by
  constructor
  · unfold admissibleJitter c7Config
    norm_num
  · unfold calculate_delay c7Config
    norm_num

/-- C7 (amended as the counterexample forces): the pre-jitter exponential
delay is clamped at max_delay for every attempt; with jitter disabled the
returned delay is at most max_delay; with jitter enabled and an
admissible draw it is at most max_delay plus a tenth of max_delay, and
can exceed max_delay itself. -/
theorem calculate_delay_capped (cfg : RetryConfig) (attempt : Nat) (j : ℚ)
    (hj : admissibleJitter cfg attempt j) :
    min (cfg.base_delay * cfg.exponential_base ^ attempt) cfg.max_delay ≤
      cfg.max_delay ∧
    (cfg.jitter = false → calculate_delay cfg attempt j ≤ cfg.max_delay) ∧
    (cfg.jitter = true →
      calculate_delay cfg attempt j ≤ cfg.max_delay * (11 / 10)) := by
  obtain ⟨hj0, hjle⟩ := hj
  set d := min (cfg.base_delay * cfg.exponential_base ^ attempt) cfg.max_delay
    with hd
  have hdle : d ≤ cfg.max_delay := min_le_right _ _
  refine ⟨hdle, ?_, ?_⟩
  · intro hfalse
    unfold calculate_delay
    rw [← hd, hfalse]
    simpa using hdle
  · intro htrue
    unfold calculate_delay
    rw [← hd, htrue]
    simp only [if_true]
    have h1 : d + j ≤ d * (11 / 10) := by
      have : d + j ≤ d + d / 10 := by linarith
      linarith
    have h2 : d * (11 / 10) ≤ cfg.max_delay * (11 / 10) := by
      have hq : (0 : ℚ) ≤ 11 / 10 := by norm_num
      exact mul_le_mul_of_nonneg_right hdle hq
    linarith

/-- C7 witness for the amended bound: the counterexample configuration at
attempt 0 with the maximal admissible draw stays within 1.1 times the
cap. -/
theorem calculate_delay_capped_witness :
    calculate_delay c7Config 0 (1 / 10) ≤ c7Config.max_delay * (11 / 10) := by
  have h := calculate_delay_capped c7Config 0 (1 / 10)
    (by unfold admissibleJitter c7Config; norm_num)
  exact h.2.2 rfl

/-! ## Claim C8 -/

/-- C8: immediately after any metadata refresh by update_metadata, the
total_messages counter equals the length of messages; and at the end of a
completed turn, that is after update_state ran on a valid state carrying
a truthy agent response, the equality holds as well. -/
theorem total_messages_spec (now : String) (s : AgentState)
    (hv : validate_state s = true)
    (hr : truthyResp s.agent_response = true) :
    ((update_metadata now s).metadata).map Metadata.total_messages =
      some (update_metadata now s).messages.length ∧
    ((update_state now s).metadata).map Metadata.total_messages =
      some (update_state now s).messages.length := by
  constructor
  · match h : s.metadata with
    | none => simp [update_metadata, h]
    | some m => simp [update_metadata, h]
  · unfold update_state
    rw [hv]
    match h : s.agent_response with
    | none => rw [h] at hr; simp [truthyResp] at hr
    | some (.inl m) =>
        simp only [Bool.not_true, Bool.false_eq_true, if_false]
        unfold reset_error_state
        match hm : s.metadata with
        | none => simp [update_metadata, hm]
        | some md => simp [update_metadata, hm]
    | some (.inr str) =>
        rw [h] at hr
        simp only [truthyResp, ne_eq, decide_not] at hr
        have hne : str ≠ "" := by
          by_contra hc
          simp [hc] at hr
        simp only [Bool.not_true, Bool.false_eq_true, if_false, hne, ne_eq,
          not_false_eq_true, if_true]
        unfold reset_error_state
        match hm : s.metadata with
        | none => simp [update_metadata, hm]
        | some md => simp [update_metadata, hm]

/-- C8 witness: a concrete one-message state with a pending assistant
response; after update_state the counter equals the new length. -/
theorem total_messages_spec_witness :
    (((update_state "t1"
        { mkState [Msg.human "hi"] with
          agent_response := some (.inl (Msg.ai "hello" [])) }).metadata).map
      Metadata.total_messages) =
      some ((update_state "t1"
        { mkState [Msg.human "hi"] with
          agent_response := some (.inl (Msg.ai "hello" [])) }).messages.length) :=
  (total_messages_spec "t1"
    { mkState [Msg.human "hi"] with
      agent_response := some (.inl (Msg.ai "hello" [])) }
    (by decide) (by decide)).2

/-! ## Claim C9 -/



/-- C9 counterexample: the code collects the user messages among the last
6 messages, not the last up-to-6 user messages: on a conversation whose
last six entries are assistant messages it reports no recent topics even
though a user message exists. -/
theorem recent_topics_counterexample :
    (analyze_conversation_context c9Bad).recent_topics = [] ∧
    spec_recent_topics c9Bad.messages = ["a"] ∧
    ((analyze_conversation_context c9Bad).recent_topics ≠
      spec_recent_topics c9Bad.messages) := by
  refine ⟨by decide, by decide, by decide⟩

/-- C9 (amended on the recent-topics clause, as the counterexample
forces): the stage is classified purely by message count exactly as
claimed, needs_summary holds exactly above 20 messages, and
recent_topics is the content of the user messages among the last 6
messages of the conversation when it has at least 2 messages, and empty
otherwise; when the whole conversation fits in that window the result
coincides with the last up-to-6 user messages. -/
theorem analyze_context_spec (s : AgentState) :
    ((analyze_conversation_context s).conversation_stage =
      if s.messages.length = 0 then "beginning"
      else if s.messages.length < 6 then "early"
      else if s.messages.length < 15 then "middle"
      else "extended") ∧
    ((analyze_conversation_context s).needs_summary =
      decide (s.messages.length > 20)) ∧
    ((analyze_conversation_context s).recent_topics =
      if 2 ≤ s.messages.length then
        ((lastN s.messages 6).filter Msg.isHuman).map Msg.contentOf
      else []) ∧
    (2 ≤ s.messages.length → s.messages.length ≤ 6 →
      (analyze_conversation_context s).recent_topics =
        spec_recent_topics s.messages) := by
  refine ⟨rfl, rfl, ?_, ?_⟩
  · unfold analyze_conversation_context pySliceLast lastN
    simp
  · intro h2 h6
    unfold analyze_conversation_context pySliceLast spec_recent_topics lastN
    have hz : s.messages.length - 6 = 0 := by omega
    have hlen : ((s.messages.filter Msg.isHuman).map Msg.contentOf).length ≤ 6 := by
      have hf : (s.messages.filter Msg.isHuman).length ≤ s.messages.length :=
        List.length_filter_le _ _
      simp only [List.length_map]
      omega
    have hz2 : ((s.messages.filter Msg.isHuman).map Msg.contentOf).length - 6
        = 0 := by omega
    have hz3 : (s.messages.filter Msg.isHuman).length - 6 = 0 := by
      have hf : (s.messages.filter Msg.isHuman).length ≤ s.messages.length :=
        List.length_filter_le _ _
      omega
    simp [h2, hz, hz2, hz3]

/-- C9 witness for the amended claim: a four-message conversation where
the code topics agree with the last up-to-6 user messages. -/
theorem analyze_context_spec_witness :
    (analyze_conversation_context
      (mkState [Msg.human "x", Msg.ai "y" [], Msg.human "z", Msg.ai "w" []])
      ).recent_topics =
      spec_recent_topics
        (mkState [Msg.human "x", Msg.ai "y" [], Msg.human "z", Msg.ai "w" []]
          ).messages :=
  (analyze_context_spec
    (mkState [Msg.human "x", Msg.ai "y" [], Msg.human "z", Msg.ai "w" []])
    ).2.2.2 (by decide) (by decide)

/-! ## Claim C1 -/

/-- Truncation never changes the iteration counter. -/
theorem truncate_iteration_count (s : AgentState) (k : Nat) :
    (truncate_conversation_history s k).iteration_count = s.iteration_count := by
  by_cases h : s.messages.length > k <;>
    simp [truncate_conversation_history, h]

/-- A metadata refresh never changes the iteration counter. -/
theorem update_metadata_iteration_count (now : String) (s : AgentState) :
    (update_metadata now s).iteration_count = s.iteration_count := by
  cases hm : s.metadata <;> simp [update_metadata, hm]

/-- C1: the continuation decision ends the workflow exactly when
should_end holds or the iteration counter reached max_iterations, or the
conversation is single-turn with at least one completed iteration and no
truthy pending user input; otherwise it answers continue, looping back to
process_input.  With max_iterations = 1 every state after the first pass
is ended regardless of should_end, since process_input leaves the counter
at least 1 whenever it consumed input from a valid state. -/
theorem should_continue_spec (cfg : BobConfig) (s : AgentState) :
    (should_continue cfg s = "end" ↔
      ((s.should_end = true ∨ cfg.max_iterations ≤ s.iteration_count) ∨
       (s.continue_conversation = false ∧ 1 ≤ s.iteration_count ∧
        truthyStr s.user_input = false))) ∧
    (should_continue cfg s = "end" ∨ should_continue cfg s = "continue") ∧
    (cfg.max_iterations = 1 → 1 ≤ s.iteration_count →
      should_continue cfg s = "end") ∧
    (validate_state s = true → truthyStr s.user_input = true →
      ∀ now, 1 ≤ (process_input cfg now s).iteration_count) := by
  refine ⟨?_, ?_, ?_, ?_⟩
  · unfold should_continue
    rcases hse : s.should_end <;> rcases hcc : s.continue_conversation <;>
      rcases hui : truthyStr s.user_input <;>
      by_cases hit : cfg.max_iterations ≤ s.iteration_count <;>
      by_cases h1 : (1 : Int) ≤ s.iteration_count <;>
      simp [hse, hcc, hui, hit, h1, ge_iff_le]
  · unfold should_continue
    split
    · exact Or.inl rfl
    · split
      · exact Or.inl rfl
      · exact Or.inr rfl
  · intro hm h1
    unfold should_continue
    have hge : s.iteration_count ≥ cfg.max_iterations := by omega
    simp [hge]
  · intro hv ht now
    unfold process_input
    rw [hv]
    have h0 : (0 : Int) ≤ s.iteration_count := by
      have := of_decide_eq_true hv
      exact this
    cases hu : s.user_input with
    | none => rw [hu] at ht; simp [truthyStr] at ht
    | some u =>
        rw [hu] at ht
        have hne : u ≠ "" := by simpa [truthyStr] using ht
        simp only [Bool.not_true, Bool.false_eq_true, if_false, hne, ne_eq,
          not_false_eq_true, if_true, reset_error_state,
          truncate_iteration_count, update_metadata_iteration_count]
        omega

/-- C1 witness: at max_iterations = 1, a state one iteration deep with
should_end still false is terminal, and process_input pushes the counter
of the fresh chat state to 1. -/
theorem should_continue_spec_witness :
    should_continue { max_iterations := 1 }
      { mkState [] with iteration_count := 1 } = "end" ∧
    1 ≤ (process_input {} "t0"
      (create_initial_state "hi" "t0" "c0")).iteration_count :=
  ⟨(should_continue_spec { max_iterations := 1 }
      { mkState [] with iteration_count := 1 }).2.2.1 rfl (by decide),
   (should_continue_spec {} (create_initial_state "hi" "t0" "c0")).2.2.2
      (by decide) (by decide) "t0"⟩

/-! ## Claim C6 -/

/-- A first error whose classification is outside the retry-set stops the
loop at once. -/
theorem retryLoopAux_not_retryable (primary : Nat → Except AgentError String)
    (set : List ErrorType) (attempt rem : Nat) (e : AgentError)
    (hp : primary attempt = .error e) (hnot : classify_error e ∉ set) :
    retryLoopAux primary set attempt rem = (.error e, attempt + 1) := by
  cases rem <;> simp [retryLoopAux, hp, hnot]

/-- The loop makes at most rem + 1 invocations beyond the start index. -/
theorem retryLoopAux_count_le (primary : Nat → Except AgentError String)
    (set : List ErrorType) :
    ∀ rem attempt, (retryLoopAux primary set attempt rem).2 ≤
      attempt + rem + 1 := by
  intro rem
  induction rem with
  | zero =>
      intro attempt
      unfold retryLoopAux
      cases primary attempt <;> simp
  | succ n ih =>
      intro attempt
      unfold retryLoopAux
      cases hp : primary attempt with
      | ok v => simp
      | error e =>
          by_cases hin : classify_error e ∈ set
          · simp only [hin, if_true]
            have := ih (attempt + 1)
            omega
          · simp only [hin, if_false]
            omega

/-- C6: the primary operation is retried only when the classified error
kind lies in the configured retry-set and attempts remain (a first error
outside the set ends the loop after a single invocation, and any retry
presupposes a retryable first error with max_retries at least 1); the
invocation count never exceeds max_retries + 1; on exhaustion the
supplied fallback outcome is returned as is, so a fallback error is
re-raised and, with no fallback, the last primary error is re-raised; and
the default retry-set is exactly api_error, rate_limit, network_error and
timeout_error, excluding validation_error and unknown_error. -/
theorem retry_with_fallback_spec (cfg : RetryConfig)
    (primary : Nat → Except AgentError String) (e : AgentError)
    (fb : Option (Except AgentError String)) :
    (primary 0 = .error e → classify_error e ∉ cfg.retry_on_errors →
      retry_with_fallback cfg primary fb = (fb.getD (.error e), 1)) ∧
    (2 ≤ (retryLoop cfg primary).2 →
      ∃ e0, primary 0 = .error e0 ∧
        classify_error e0 ∈ cfg.retry_on_errors ∧ 1 ≤ cfg.max_retries) ∧
    ((retryLoop cfg primary).2 ≤ cfg.max_retries + 1) ∧
    ((retryLoop cfg primary).1 = .error e →
      (retry_with_fallback cfg primary fb).1 = fb.getD (.error e)) ∧
    (({} : RetryConfig).retry_on_errors =
      [ErrorType.api_error, ErrorType.rate_limit, ErrorType.network_error,
       ErrorType.timeout_error] ∧
     ErrorType.validation_error ∉ ({} : RetryConfig).retry_on_errors ∧
     ErrorType.unknown_error ∉ ({} : RetryConfig).retry_on_errors) := by
  refine ⟨?_, ?_, ?_, ?_, by decide⟩
  · intro hp hnot
    unfold retry_with_fallback retryLoop
    rw [retryLoopAux_not_retryable primary cfg.retry_on_errors 0
      cfg.max_retries e hp hnot]
    cases fb <;> simp
  · intro hcount
    unfold retryLoop at hcount
    cases hm : cfg.max_retries with
    | zero =>
        rw [hm] at hcount
        unfold retryLoopAux at hcount
        cases hp : primary 0 <;> rw [hp] at hcount <;> simp at hcount
    | succ n =>
        rw [hm] at hcount
        unfold retryLoopAux at hcount
        cases hp : primary 0 with
        | ok v => rw [hp] at hcount; simp at hcount
        | error e0 =>
            rw [hp] at hcount
            by_cases hin : classify_error e0 ∈ cfg.retry_on_errors
            · exact ⟨e0, rfl, hin, by omega⟩
            · simp [hin] at hcount
  · unfold retryLoop
    have := retryLoopAux_count_le primary cfg.retry_on_errors cfg.max_retries 0
    omega
  · intro hr
    unfold retry_with_fallback
    rcases h : retryLoop cfg primary with ⟨r, n⟩
    rw [h] at hr
    simp only at hr
    subst hr
    cases fb <;> simp




/-- C6 witness: under the default configuration, an unknown_error is
never retried and, with no fallback, is re-raised after one invocation. -/
theorem retry_with_fallback_spec_witness :
    retry_with_fallback {} c6Fail none =
      (.error { kind := ErrorType.unknown_error, msgId := 0 }, 1) :=
  (retry_with_fallback_spec {} c6Fail
      { kind := ErrorType.unknown_error, msgId := 0 } none).1 rfl (by decide)

/-! ## Claim C2 -/

/-- C2: chat is a total function into response text paired with the
degradation level: when the wrapped workflow invocation succeeds the text
is its value with the level unchanged, and when the invocation and all
its retries fail, chat raises the degradation level by one clamped step
and returns the simplified apology selected for the new level, never
propagating the error. -/
theorem chat_spec (cfg : RetryConfig) (primary : Nat → Except AgentError String)
    (message : String) (level : Int) (e : AgentError)
    (h0 : 0 ≤ level) (h3 : level ≤ 3) :
    (∀ v, (retry_with_fallback cfg primary none).1 = .ok v →
      chat cfg primary message level = (v, level)) ∧
    ((retry_with_fallback cfg primary none).1 = .error e →
      (chat cfg primary message level).2 = increase_degradation level ∧
      1 ≤ (chat cfg primary message level).2 ∧
      (chat cfg primary message level).2 ≤ 3 ∧
      get_simplified_response (chat cfg primary message level).2 message =
        some (chat cfg primary message level).1) := by
  constructor
  · intro v hv
    unfold chat
    rw [hv]
  · intro he
    unfold chat
    rw [he]
    have hcases : level = 0 ∨ level = 1 ∨ level = 2 ∨ level = 3 := by omega
    rcases hcases with h | h | h | h <;> subst h <;>
      simp [increase_degradation, max_degradation_level,
        get_simplified_response]

/-- C2 witness: with an always-failing workflow invocation from level 0,
chat answers the level-1 apology and the level becomes 1. -/
theorem chat_spec_witness :
    (chat {} c6Fail "hello" 0).2 = increase_degradation 0 ∧
    1 ≤ (chat {} c6Fail "hello" 0).2 ∧
    (chat {} c6Fail "hello" 0).2 ≤ 3 ∧
    get_simplified_response (chat {} c6Fail "hello" 0).2 "hello" =
      some (chat {} c6Fail "hello" 0).1 :=
  (chat_spec {} c6Fail "hello" 0
      { kind := ErrorType.unknown_error, msgId := 0 }
      (by decide) (by decide)).2 (by rfl)

/-! ## Claim C3 -/

/-- C3 counterexample: on the claimed scenario (new thread, one user
message, tool use enabled, degradation 0, first model response with one
tool call, second with plain text) the workflow does not visit
advanced_processing — the conditional edge after process_input reads
user_input only after that node cleared it — and the messages list grows
by 4, not 3. -/
theorem c3_counterexample :
    c3Run.map (fun p => p.1) =
      .ok [Node.process_input, Node.generate_response, Node.tools,
           Node.generate_response, Node.update_state] ∧
    c3Run.map (fun p => p.1) ≠
      .ok [Node.process_input, Node.advanced_processing,
           Node.generate_response, Node.tools, Node.generate_response,
           Node.update_state] ∧
    c3Run.map (fun p => p.2.messages.length - c3Init.messages.length) =
      .ok 4 ∧ (4 : Nat) ≠ 3 := by
  refine ⟨by decide, by decide, by decide, by decide⟩

/-- C3 (amended as the counterexample forces): the scenario visits
process_input, generate_response, tools, generate_response, update_state
in that order, skipping advanced_processing; the final messages list is
longer by exactly 4 than before the turn — the user message, the
assistant tool-call message, the tool-result message and the final
assistant message — and user_input ends null. -/
theorem c3_scenario_run :
    c3Run.map (fun p => (p.1, p.2.messages, p.2.user_input)) =
      .ok ([Node.process_input, Node.generate_response, Node.tools,
            Node.generate_response, Node.update_state],
           [Msg.human "Calculate 15*8+25",
            Msg.ai "" [{ name := "calculator", id := 1 }],
            Msg.tool "145.0",
            Msg.ai "The result is 145." []],
           none) ∧
    c3Init.messages.length = 0 := by
  refine ⟨by decide, by decide⟩

end Bob
